import Mathlib

/-!
Verification of the Hydrant ingestion pipeline (fhir-department repository).

The C sources are shallowly embedded as pure Lean functions.  Stateful code
becomes explicit state passing; libpq interactions become oracle records whose
fields give each call's outcome; size_t arithmetic is Nat with explicit
reduction modulo 2^64 where wraparound matters; out-parameters that may be
left unassigned are modelled as `Option Nat` (`none` = never written through).
-/

namespace Hydrant

/-! ## Constants (include/hydrant.h) -/

def MAX_RECOVERY_ATTEMPTS : Nat := 3
def CONNECTION_DEAD_THRESHOLD : Nat := 5
def MAX_BACKOFF_ATTEMPTS : Nat := 10
def MAX_POOL_SIZE : Nat := 10
def RECOVERY_BACKOFF_BASE_MS : Nat := 100
def COPY_CHUNK_SIZE : Nat := 8 * 1024
def MIN_BATCH_SIZE : Nat := 64 * 1024
def DEFAULT_BATCH_SIZE : Nat := 1 * 1024 * 1024
def MAX_BATCH_SIZE : Nat := 10 * 1024 * 1024

/-- Modulus of size_t arithmetic (64-bit platform, as in the Makefile's gcc build). -/
def SIZE_T_MOD : Nat := 2 ^ 64

/-- size_t subtraction `a - b` reduced modulo 2^64 (for `a, b < 2^64`). -/
def size_t_sub (a b : Nat) : Nat := (a + (SIZE_T_MOD - b % SIZE_T_MOD)) % SIZE_T_MOD

/-! ## Batch accumulator: add_to_batch (src/batch.c lines 13-26)

The byte buffer is a function `Nat → Nat` (index to byte value); `memcpy` into
it at offset `pos` overwrites exactly the bytes `[pos, pos + size)`. -/

def memcpy (buf : Nat → Nat) (pos : Nat) (data : Nat → Nat) (size : Nat) : Nat → Nat :=
  fun i => if pos ≤ i ∧ i < pos + size then data (i - pos) else buf i

structure AddResult where
  ok : Bool
  pos : Nat
  buffer : Nat → Nat

/-- `add_to_batch` from src/batch.c: reject if `current_batch_pos + size`
exceeds the configured batch size, else memcpy and advance the position.
Both operands of the guard and the position update are size_t, so the sum
`current_batch_pos + size` is computed modulo 2^64: a size close to 2^64
wraps the sum below the capacity and is accepted. -/
def add_to_batch (batchSize : Nat) (buffer : Nat → Nat) (pos : Nat)
    (data : Nat → Nat) (size : Nat) : AddResult :=
  if (pos + size) % SIZE_T_MOD > batchSize then
    { ok := false, pos := pos, buffer := buffer }
  else
    { ok := true, pos := (pos + size) % SIZE_T_MOD,
      buffer := memcpy buffer pos data size }

/-! ## Bulk-copy driver: flush_batch (src/batch.c lines 28-161)

libpq interactions are an oracle `FlushEnv`: whether `get_connection`
returns a handle, whether BEGIN / COPY start / COPY end / COMMIT succeed,
and the sequence of `PQputCopyData` results (1 = written, 0 = backpressure,
-1 = error).  The chunked write loop consumes that sequence; `none` means the
supplied trace was too short to finish the run. -/

inductive PutRes where
  | written
  | busy
  | err
deriving DecidableEq, Repr

structure LoopOut where
  totalWritten : Nat
  success : Bool
deriving DecidableEq, Repr

/-- The chunked-write loop of `flush_batch` (src/batch.c lines 66-122):
`max_retries = 5`; a written chunk advances by `min (remaining) COPY_CHUNK_SIZE`
and resets the retry counter; the sixth consecutive backpressure result or any
error result aborts with `success = false`. -/
def copyLoop (batchPos : Nat) : List PutRes → Nat → Nat → Option LoopOut
  | [], totalWritten, _ =>
      if totalWritten < batchPos then none else some ⟨totalWritten, true⟩
  | r :: rest, totalWritten, retryCount =>
      if totalWritten < batchPos then
        match r with
        | .written =>
            copyLoop batchPos rest
              (totalWritten + min (batchPos - totalWritten) COPY_CHUNK_SIZE) 0
        | .busy =>
            if retryCount + 1 > 5 then some ⟨totalWritten, false⟩
            else copyLoop batchPos rest totalWritten (retryCount + 1)
        | .err => some ⟨totalWritten, false⟩
      else some ⟨totalWritten, true⟩

structure FlushEnv where
  connAvail : Bool
  beginOk : Bool
  copyStartOk : Bool
  putTrace : List PutRes
  copyEndOk : Bool
  commitOk : Bool
deriving DecidableEq, Repr

/-- Result of one `flush_batch` call: return value, the buffer position on
return, the values stored through the out-parameters (`none` = the pointer was
never written through), and the deltas applied to the running stats inside
`flush_batch` itself (src/batch.c lines 149-156). -/
structure FlushResult where
  ret : Bool
  pos : Nat
  processed : Option Nat
  failed : Option Nat
  dBatches : Nat
  dBytes : Nat
  dErrors : Nat
deriving DecidableEq, Repr

/-- `flush_batch` from src/batch.c.  An empty buffer returns true at once;
a failed acquire, BEGIN, or COPY start returns false early (leaving
`current_batch_pos` untouched); otherwise the write loop runs, COPY is ended
and committed on loop success, `*failed` is set to the unwritten tail on
failure, `*processed` to the bytes written, the running stats are bumped under
the stats lock, and the position is reset to zero. -/
def flush_batch (env : FlushEnv) (pos : Nat) : Option FlushResult :=
  if pos = 0 then
    some { ret := true, pos := pos, processed := none, failed := none,
           dBatches := 0, dBytes := 0, dErrors := 0 }
  else if env.connAvail = false then
    some { ret := false, pos := pos, processed := none, failed := none,
           dBatches := 0, dBytes := 0, dErrors := 0 }
  else if env.beginOk = false then
    some { ret := false, pos := pos, processed := some 0, failed := some 0,
           dBatches := 0, dBytes := 0, dErrors := 0 }
  else if env.copyStartOk = false then
    some { ret := false, pos := pos, processed := some 0, failed := some 0,
           dBatches := 0, dBytes := 0, dErrors := 0 }
  else
    match copyLoop pos env.putTrace 0 0 with
    | none => none
    | some out =>
        let success := out.success && env.copyEndOk && env.commitOk
        let failedVal : Nat := if success then 0 else pos - out.totalWritten
        some { ret := success, pos := 0,
               processed := some out.totalWritten, failed := some failedVal,
               dBatches := 1, dBytes := out.totalWritten,
               dErrors := if failedVal > 0 then 1 else 0 }

/-- A flush environment in which no pool connection can be acquired. -/
def envNoConn : FlushEnv :=
  { connAvail := false, beginOk := true, copyStartOk := true,
    putTrace := [], copyEndOk := true, commitOk := true }

/-- A flush environment in which every database interaction succeeds and a
single put-chunk call ships the whole (≤ 8 KiB) buffer. -/
def envAllOk : FlushEnv :=
  { connAvail := true, beginOk := true, copyStartOk := true,
    putTrace := [.written], copyEndOk := true, commitOk := true }

/-- The expected result of `flush_batch envAllOk 8192`. -/
def rAllOk : FlushResult :=
  { ret := true, pos := 0, processed := some 8192, failed := some 0,
    dBatches := 1, dBytes := 8192, dErrors := 0 }

/-- A flush environment whose first put-chunk call reports a write error. -/
def envWriteErr : FlushEnv :=
  { connAvail := true, beginOk := true, copyStartOk := true,
    putTrace := [.err], copyEndOk := true, commitOk := true }

/-! ## Running stats and the stats ring: update_batch_stats
(src/batch.c lines 163-188)

Only the fields the claims are about are carried: the running counters, the
ring size (`batch_stats_size`, set to 1000 by init_hydrant), and the ring
cursor `current_batch` (a size_t).  The floating-point rolling mean is not
modelled; the index arithmetic of its inputs is. -/

structure RunningStats where
  totalBytes : Nat
  batchesProcessed : Nat
  errors : Nat
deriving DecidableEq, Repr

structure StatsCtx where
  stats : RunningStats
  ringSize : Nat
  currentBatch : Nat
deriving DecidableEq, Repr

/-- `update_batch_stats` from src/batch.c: add `processed` to total bytes,
increment the batch counter, add `failed` to the error counter, and advance
the ring cursor modulo `batch_stats_size`. -/
def update_batch_stats (s : StatsCtx) (processed failed : Nat) : StatsCtx :=
  { stats := { totalBytes := s.stats.totalBytes + processed,
               batchesProcessed := s.stats.batchesProcessed + 1,
               errors := s.stats.errors + failed },
    ringSize := s.ringSize,
    currentBatch := (s.currentBatch + 1) % s.ringSize }

/-- The size_t index of the ring read `batch_stats[current_batch - 1]`
performed by `update_batch_stats` (src/batch.c lines 177-179) whenever
`batches_processed > 1` holds after the increment at line 173; `none` when
that read is skipped. -/
def update_prev_read_index (s : StatsCtx) : Option Nat :=
  if s.stats.batchesProcessed + 1 > 1 then some (size_t_sub s.currentBatch 1)
  else none

/-- Apply the running-stats deltas that `flush_batch` itself performs under
the stats lock (src/batch.c lines 149-156) to a stats context. -/
def applyFlushDelta (s : StatsCtx) (r : FlushResult) : StatsCtx :=
  { stats := { totalBytes := s.stats.totalBytes + r.dBytes,
               batchesProcessed := s.stats.batchesProcessed + r.dBatches,
               errors := s.stats.errors + r.dErrors },
    ringSize := s.ringSize,
    currentBatch := s.currentBatch }

/-- The caller pattern of process_input / main (src/batch.c lines 254-278):
`processed` and `failed` are initialized to 0, `flush_batch` runs, and the
resulting values are passed to `update_batch_stats`. -/
def flush_then_update (env : FlushEnv) (pos : Nat) (s : StatsCtx) : Option StatsCtx :=
  (flush_batch env pos).map fun r =>
    update_batch_stats (applyFlushDelta s r) (r.processed.getD 0) (r.failed.getD 0)

/-- The stats context right after init: zero counters, 1000-entry ring,
cursor 0. -/
def statsCtx0 : StatsCtx :=
  { stats := { totalBytes := 0, batchesProcessed := 0, errors := 0 },
    ringSize := 1000, currentBatch := 0 }

/-! ## Connection pool (src/connection.c, include/hydrant_types.h)

A pool slot carries the `PoolConnection` fields the claims are about; the
libpq handle itself is abstracted away and slots are addressed by index.
`healthy_connections` is a size_t, but every decrement in the source happens
behind a state guard, so Nat with truncated subtraction is used and each
theorem tracks the exact value. -/

inductive ConnState where
  | available
  | inUse
  | dead
  | permanentFailure
deriving DecidableEq, Repr

structure PoolSlot where
  state : ConnState
  lastUsed : Nat
  failedAttempts : Nat
  recoveryAttempts : Nat
  nextRecoveryAttempt : Nat
  lastError : String
deriving DecidableEq, Repr

structure PoolCtx where
  pool : List PoolSlot
  healthy : Nat
deriving DecidableEq, Repr

/-- Replace the slot at index `i` (out-of-range indices leave the pool as is). -/
def modifySlot : List PoolSlot → Nat → (PoolSlot → PoolSlot) → List PoolSlot
  | [], _, _ => []
  | pc :: rest, 0, f => f pc :: rest
  | pc :: rest, n + 1, f => pc :: modifySlot rest n f

/-- Count of slots whose state is neither DEAD nor PERMANENT_FAILURE. -/
def countNotDead (pool : List PoolSlot) : Nat :=
  (pool.filter (fun pc =>
    !(pc.state == ConnState.dead || pc.state == ConnState.permanentFailure))).length

/-- `mark_connection_dead` from src/connection.c lines 19-33: under the locks,
if the slot is not already DEAD or PERMANENT_FAILURE, decrement the healthy
counter, set the state to DEAD, record the error and log (the returned Bool
reports whether that WARN log was emitted). -/
def mark_connection_dead (ctx : PoolCtx) (i : Nat) (err : String) : PoolCtx × Bool :=
  match ctx.pool.get? i with
  | none => (ctx, false)
  | some pc =>
    if pc.state ≠ ConnState.dead ∧ pc.state ≠ ConnState.permanentFailure then
      ({ pool := modifySlot ctx.pool i
            (fun p => { p with state := ConnState.dead, lastError := err }),
         healthy := ctx.healthy - 1 }, true)
    else (ctx, false)

/-- Outcomes of the libpq calls made by one recovery attempt. -/
structure RecoverEnv where
  connectOk : Bool
  sslInUse : Bool
  prepareOk : Bool
deriving DecidableEq, Repr

/-- Result of `recover_dead_connection`: the updated slot, the return value,
and the deltas to `healthy_connections`, `stats.connection_resets` and
`stats.connection_failures`; `loggedPermanent` reports the one-time ERROR log
of the transition into PERMANENT_FAILURE. -/
structure RecoverOut where
  slot : PoolSlot
  ret : Bool
  dHealthy : Nat
  dResets : Nat
  dFailures : Nat
  loggedPermanent : Bool
deriving DecidableEq, Repr

/-- `recover_dead_connection` from src/connection.c lines 35-113.  The time
gate comes first; then the permanent-failure cutoff; then reconnect.  A failed
reconnect increments `recovery_attempts` and schedules
`next_recovery_attempt = now + (RECOVERY_BACKOFF_BASE_MS << min(attempts, MAX_BACKOFF_ATTEMPTS)) / 1000`
(integer division, seconds).  A failed secure-transport check or a failed
PQprepare increments `recovery_attempts` but schedules nothing.  Success
clears the counters and returns the slot to AVAILABLE, bumping the healthy
counter. -/
def recover_dead_connection (requireSsl : Bool) (env : RecoverEnv) (now : Nat)
    (pc : PoolSlot) : RecoverOut :=
  if now < pc.nextRecoveryAttempt then
    { slot := pc, ret := false, dHealthy := 0, dResets := 0, dFailures := 0,
      loggedPermanent := false }
  else if pc.recoveryAttempts ≥ MAX_RECOVERY_ATTEMPTS then
    if pc.state ≠ ConnState.permanentFailure then
      { slot := { pc with state := ConnState.permanentFailure }, ret := false,
        dHealthy := 0, dResets := 0, dFailures := 0, loggedPermanent := true }
    else
      { slot := pc, ret := false, dHealthy := 0, dResets := 0, dFailures := 0,
        loggedPermanent := false }
  else if env.connectOk = false then
    let a := pc.recoveryAttempts + 1
    { slot := { pc with
        recoveryAttempts := a,
        lastError := "Recovery failed: connect",
        nextRecoveryAttempt :=
          now + (RECOVERY_BACKOFF_BASE_MS <<<
            (if a < MAX_BACKOFF_ATTEMPTS then a else MAX_BACKOFF_ATTEMPTS)) / 1000 },
      ret := false, dHealthy := 0, dResets := 0, dFailures := 1,
      loggedPermanent := false }
  else if requireSsl = true ∧ env.sslInUse = false then
    { slot := { pc with
        recoveryAttempts := pc.recoveryAttempts + 1,
        lastError := "Recovery failed: SSL required but not in use" },
      ret := false, dHealthy := 0, dResets := 0, dFailures := 0,
      loggedPermanent := false }
  else if env.prepareOk = false then
    { slot := { pc with
        recoveryAttempts := pc.recoveryAttempts + 1,
        lastError := "Failed to prepare statement" },
      ret := false, dHealthy := 0, dResets := 0, dFailures := 0,
      loggedPermanent := false }
  else
    { slot := { pc with
        failedAttempts := 0, recoveryAttempts := 0, nextRecoveryAttempt := 0,
        state := ConnState.available },
      ret := true, dHealthy := 1, dResets := 1, dFailures := 0,
      loggedPermanent := false }

/-- `return_connection` from src/connection.c lines 166-189: on error,
increment `failed_attempts`, record the error, and either mark the slot dead
(at the threshold) or put it back to AVAILABLE; on a clean release, AVAILABLE
with the counter reset. -/
def return_connection (ctx : PoolCtx) (i : Nat) (hadError : Bool)
    (errMsg : String) : PoolCtx :=
  match ctx.pool.get? i with
  | none => ctx
  | some pc =>
    if hadError then
      let pc1 : PoolSlot :=
        { pc with failedAttempts := pc.failedAttempts + 1, lastError := errMsg }
      let ctx1 : PoolCtx := { ctx with pool := modifySlot ctx.pool i (fun _ => pc1) }
      if pc1.failedAttempts ≥ CONNECTION_DEAD_THRESHOLD then
        (mark_connection_dead ctx1 i pc1.lastError).1
      else
        { ctx1 with pool := (modifySlot ctx1.pool i
            (fun p => { p with state := ConnState.available })) }
    else
      { ctx with pool := (modifySlot ctx.pool i
          (fun p => { p with state := ConnState.available, failedAttempts := 0 })) }

/-- Outcomes of the libpq calls made for one slot during init_hydrant's pool
construction (src/init.c lines 170-208). -/
structure InitSlotEnv where
  connectOk : Bool
  sslInUse : Bool
  prepareOk : Bool
deriving DecidableEq, Repr

/-- One slot as set up by init_hydrant: DEAD when the connect, the
secure-transport check, or the prepare fails; AVAILABLE otherwise; all
counters zeroed. -/
def init_slot (requireSsl : Bool) (e : InitSlotEnv) : PoolSlot :=
  { state :=
      if e.connectOk = false then ConnState.dead
      else if requireSsl = true ∧ e.sslInUse = false then ConnState.dead
      else if e.prepareOk = false then ConnState.dead
      else ConnState.available,
    lastUsed := 0, failedAttempts := 0, recoveryAttempts := 0,
    nextRecoveryAttempt := 0,
    lastError := if e.connectOk = false then "connect failed" else "" }

/-- The pool as built by init_hydrant: MAX_POOL_SIZE slots, the healthy
counter incremented once per slot that ends AVAILABLE. -/
def init_pool (requireSsl : Bool) (envs : Nat → InitSlotEnv) : PoolCtx :=
  let pool := (List.range MAX_POOL_SIZE).map (fun i => init_slot requireSsl (envs i))
  { pool := pool,
    healthy := (pool.filter (fun pc => pc.state == ConnState.available)).length }

/-! ## get_connection (src/connection.c lines 115-164)

The first scan consults `PQstatus` per slot (oracle `statusOk`); the second
scan attempts recovery on DEAD slots, keeping the mutations of failed
attempts; the wait loop is driven by a trace of condition-variable outcomes
(`pthread_cond_timedwait` returning ETIMEDOUT, or a wake-up).  The absolute
one-second deadline is computed once before the loop; the loop body rescans
and the loop exits - returning NULL - on the first ETIMEDOUT.  The function
never reads `shutdown_requested`, which is still carried in the environment
so that independence from it can be stated. -/

/-- First index `≥ i` whose slot is AVAILABLE with a healthy libpq status. -/
def findAvailableFrom (statusOk : Nat → Bool) : List PoolSlot → Nat → Option Nat
  | [], _ => none
  | pc :: rest, i =>
      if pc.state = ConnState.available ∧ statusOk i = true then some i
      else findAvailableFrom statusOk rest (i + 1)

structure ScanOut where
  pool : List PoolSlot
  acquired : Option Nat
  dHealthy : Nat
  dResets : Nat
  dFailures : Nat
deriving DecidableEq, Repr

/-- The second pass of `get_connection`: try `recover_dead_connection` on each
DEAD slot in order; on the first success, transition that slot to IN_USE and
stop; failed attempts keep their slot mutations (attempt counters, backoff,
possible PERMANENT_FAILURE transition). -/
def recoverScan (requireSsl : Bool) (recoverEnv : Nat → RecoverEnv) (now : Nat) :
    List PoolSlot → Nat → ScanOut
  | [], _ => { pool := [], acquired := none, dHealthy := 0, dResets := 0, dFailures := 0 }
  | pc :: rest, i =>
    if pc.state = ConnState.dead then
      let out := recover_dead_connection requireSsl (recoverEnv i) now pc
      if out.ret then
        { pool := { out.slot with state := ConnState.inUse, lastUsed := now } :: rest,
          acquired := some i, dHealthy := out.dHealthy, dResets := out.dResets,
          dFailures := out.dFailures }
      else
        let sc := recoverScan requireSsl recoverEnv now rest (i + 1)
        { pool := out.slot :: sc.pool, acquired := sc.acquired,
          dHealthy := out.dHealthy + sc.dHealthy,
          dResets := out.dResets + sc.dResets,
          dFailures := out.dFailures + sc.dFailures }
    else
      let sc := recoverScan requireSsl recoverEnv now rest (i + 1)
      { pool := pc :: sc.pool, acquired := sc.acquired, dHealthy := sc.dHealthy,
        dResets := sc.dResets, dFailures := sc.dFailures }

inductive WaitEvent where
  | timedOut
  | woke
deriving DecidableEq, Repr

/-- The condition-variable loop: each trace entry is one return of
`pthread_cond_timedwait`.  ETIMEDOUT exits the loop (NULL is returned to the
caller); any other return rescans the pool.  `none` means the supplied trace
ended before the loop did. -/
def waitLoop (statusOkOnWake : Nat → Nat → Bool) (now : Nat)
    (pool : List PoolSlot) : List WaitEvent → Nat → Option (List PoolSlot × Option Nat)
  | [], _ => none
  | WaitEvent.timedOut :: _, _ => some (pool, none)
  | WaitEvent.woke :: rest, k =>
    match findAvailableFrom (statusOkOnWake k) pool 0 with
    | some i =>
        some (modifySlot pool i
          (fun pc => { pc with state := ConnState.inUse, lastUsed := now }), some i)
    | none => waitLoop statusOkOnWake now pool rest (k + 1)

structure GetEnv where
  shutdownRequested : Bool
  requireSsl : Bool
  statusOk : Nat → Bool
  recoverEnv : Nat → RecoverEnv
  now : Nat
  waitEvents : List WaitEvent
  statusOkOnWake : Nat → Nat → Bool

/-- The amended acquisition contract's timeout condition, stated from its
words (not from the code): the wait-event trace reaches ETIMEDOUT before any
wake-up rescan finds an AVAILABLE healthy slot.  Compared against the
embedded `get_connection` / `waitLoop` below. -/
def timesOutFirst (statusOkOnWake : Nat → Nat → Bool)
    (pool : List PoolSlot) : List WaitEvent → Nat → Bool
  | [], _ => false
  | WaitEvent.timedOut :: _, _ => true
  | WaitEvent.woke :: rest, k =>
    match findAvailableFrom (statusOkOnWake k) pool 0 with
    | some _ => false
    | none => timesOutFirst statusOkOnWake pool rest (k + 1)

/-- `get_connection` from src/connection.c: first scan for an AVAILABLE
healthy slot; then try to recover DEAD slots; then wait on the pool condition
variable, rescanning on wake-ups, until ETIMEDOUT makes it return NULL
(modelled as `none` in the second component).  The outer `Option` is `none`
only when the wait-event trace is too short to finish the run. -/
def get_connection (env : GetEnv) (ctx : PoolCtx) : Option (PoolCtx × Option Nat) :=
  match findAvailableFrom env.statusOk ctx.pool 0 with
  | some i =>
      some ({ ctx with pool := (modifySlot ctx.pool i
        (fun pc => { pc with state := ConnState.inUse, lastUsed := env.now })) },
        some i)
  | none =>
    let sc := recoverScan env.requireSsl env.recoverEnv env.now ctx.pool 0
    let ctx1 : PoolCtx := { pool := sc.pool, healthy := ctx.healthy + sc.dHealthy }
    match sc.acquired with
    | some i => some (ctx1, some i)
    | none =>
      match waitLoop env.statusOkOnWake env.now ctx1.pool env.waitEvents 0 with
      | none => none
      | some (pool2, acq) => some ({ ctx1 with pool := pool2 }, acq)

/-! ## Configuration loading (src/init.c) -/

structure ConfigEnvVars where
  batchSizeVar : Option Nat
  dbUrlPresent : Bool
deriving DecidableEq, Repr

/-- The environment-variable path of `load_config` (src/init.c lines 25-44):
`batch_size` starts at DEFAULT_BATCH_SIZE and an HYDRANT_BATCH_SIZE value is
accepted only when it lies within [MIN_BATCH_SIZE, MAX_BATCH_SIZE]; a missing
HYDRANT_DB_URL fails the load.  Returns the loaded batch size. -/
def load_config_env (e : ConfigEnvVars) : Option Nat :=
  let bs : Nat :=
    match e.batchSizeVar with
    | some v =>
        if MIN_BATCH_SIZE ≤ v ∧ v ≤ MAX_BATCH_SIZE then v else DEFAULT_BATCH_SIZE
    | none => DEFAULT_BATCH_SIZE
  if e.dbUrlPresent = false then none else some bs

/-- The batch-size clamp of `init_hydrant` (src/init.c lines 147-156):
values below MIN_BATCH_SIZE or above MAX_BATCH_SIZE are clamped with a WARN
log each; returns the effective size and the number of WARN logs emitted. -/
def init_clamp_batch_size (bs : Nat) : Nat × Nat :=
  let p1 : Nat × Nat := if bs < MIN_BATCH_SIZE then (MIN_BATCH_SIZE, 1) else (bs, 0)
  if p1.1 > MAX_BATCH_SIZE then (MAX_BATCH_SIZE, p1.2 + 1) else p1

/-- Effective batch capacity after init: `load_config` then the clamp. -/
def effective_batch_size (e : ConfigEnvVars) : Option (Nat × Nat) :=
  (load_config_env e).map init_clamp_batch_size

/-! ## Concrete fixtures used by counterexamples and witnesses -/

/-- Per-slot init outcomes with every libpq call succeeding. -/
def allOkInit : Nat → InitSlotEnv :=
  fun _ => { connectOk := true, sslInUse := true, prepareOk := true }

/-- The pool right after a fully successful init: ten AVAILABLE slots,
healthy counter 10. -/
def ctxInit : PoolCtx := init_pool true allOkInit

def getEnvAllOk : GetEnv :=
  { shutdownRequested := false, requireSsl := true,
    statusOk := fun _ => true,
    recoverEnv := fun _ => { connectOk := true, sslInUse := true, prepareOk := true },
    now := 50, waitEvents := [], statusOkOnWake := fun _ _ => true }

/-- The pool-op sequence `flush_batch` performs on a write error
(src/batch.c lines 114-121 and 158): acquire a connection, mark its slot
dead, then release it with `had_error = true`. -/
def writeErrorSeq : Option PoolCtx :=
  (get_connection getEnvAllOk ctxInit).map fun res =>
    match res.2 with
    | some i =>
        return_connection (mark_connection_dead res.1 i "write failed").1
          i true "write failed"
    | none => res.1

/-- A DEAD slot whose recovery backoff gate is far in the future. -/
def blockedDeadSlot : PoolSlot :=
  { state := ConnState.dead, lastUsed := 0, failedAttempts := 5,
    recoveryAttempts := 1, nextRecoveryAttempt := 5000, lastError := "down" }

/-- A pool in which every slot is DEAD and not yet recoverable. -/
def allDeadCtx : PoolCtx :=
  { pool := List.replicate 10 blockedDeadSlot, healthy := 0 }

/-- An acquisition environment whose first condition-variable wait expires
(ETIMEDOUT) while the shutdown flag is false. -/
def getEnvTimedOut : GetEnv :=
  { shutdownRequested := false, requireSsl := true,
    statusOk := fun _ => true,
    recoverEnv := fun _ => { connectOk := true, sslInUse := true, prepareOk := true },
    now := 100, waitEvents := [WaitEvent.timedOut], statusOkOnWake := fun _ _ => true }

/-- A freshly dead slot: no recovery attempts yet, no backoff scheduled. -/
def deadSlot0 : PoolSlot :=
  { state := ConnState.dead, lastUsed := 0, failedAttempts := 5,
    recoveryAttempts := 0, nextRecoveryAttempt := 0, lastError := "down" }

/-- A recovery attempt whose reconnect fails. -/
def envConnFail : RecoverEnv :=
  { connectOk := false, sslInUse := true, prepareOk := true }

/-- A one-slot pool whose slot is DEAD. -/
def ctxOneDead : PoolCtx := { pool := [deadSlot0], healthy := 0 }

/-! ## Theorems -/

/-- Claim C5 counterexample: with a full 100-byte buffer, an append of size
2^64 - 1 wraps the size_t sum `current_batch_pos + size` to 99 ≤ 100, so
`add_to_batch` returns true and sets the position to 99 — refuting "returns
true iff pos + size does not exceed the capacity" and "any further non-empty
append returns false" at representable inputs. -/
theorem add_to_batch_wrap_counterexample :
    (add_to_batch 100 (fun _ => 0) 100 (fun _ => 0) (2 ^ 64 - 1)).ok = true
    ∧ ¬ (100 + (2 ^ 64 - 1) ≤ 100)
    ∧ (add_to_batch 100 (fun _ => 0) 100 (fun _ => 0) (2 ^ 64 - 1)).pos = 99 := by
  refine ⟨rfl, by decide, rfl⟩

/-- Claim C5 (amended): `add_to_batch` returns true iff the wrapped size_t
sum `(pos + size) mod 2^64` does not exceed the capacity; on true the
position becomes that wrapped sum; on false neither the position nor the
buffer changes (no partial append); an append exactly filling the buffer
returns true, and a further non-empty append returns false provided its size
does not wrap the sum past 2^64. -/
theorem add_to_batch_contract (bs : Nat) (buf : Nat → Nat) (pos : Nat)
    (data : Nat → Nat) (size : Nat) (hbs : bs < SIZE_T_MOD) :
    ((add_to_batch bs buf pos data size).ok = true
        ↔ (pos + size) % SIZE_T_MOD ≤ bs)
    ∧ ((add_to_batch bs buf pos data size).ok = true →
        (add_to_batch bs buf pos data size).pos = (pos + size) % SIZE_T_MOD)
    ∧ ((add_to_batch bs buf pos data size).ok = false →
        (add_to_batch bs buf pos data size).pos = pos
        ∧ (add_to_batch bs buf pos data size).buffer = buf)
    ∧ (pos + size = bs → (add_to_batch bs buf pos data size).ok = true)
    ∧ (∀ data2 size2, pos + size = bs → 0 < size2 → bs + size2 < SIZE_T_MOD →
        (add_to_batch bs (add_to_batch bs buf pos data size).buffer
          (add_to_batch bs buf pos data size).pos data2 size2).ok = false) := by
  unfold add_to_batch
  split
  · rename_i hgt
    refine ⟨by simpa using hgt, by simp, by simp, ?_, ?_⟩
    · intro he
      rw [he] at hgt
      exact absurd hgt (Nat.not_lt.mpr (Nat.mod_le bs SIZE_T_MOD))
    · intro data2 size2 he _ _
      rw [he] at hgt
      exact absurd hgt (Nat.not_lt.mpr (Nat.mod_le bs SIZE_T_MOD))
  · rename_i hle
    push_neg at hle
    refine ⟨by simpa using hle, by simp, by simp, fun _ => rfl, ?_⟩
    intro data2 size2 he hs2 hnw
    simp only
    split
    · rfl
    · rename_i h2
      exfalso
      have h2' : ¬ ((pos + size) % SIZE_T_MOD + size2) % SIZE_T_MOD > bs := h2
      rw [he, Nat.mod_eq_of_lt hbs, Nat.mod_eq_of_lt hnw] at h2'
      omega

/-- Claim C5 witness: the amended append contract at a 100-byte buffer,
position 60, append of 40 bytes. -/
theorem add_to_batch_contract_witness :
    ((add_to_batch 100 (fun _ => 0) 60 (fun _ => 0) 40).ok = true
        ↔ (60 + 40) % SIZE_T_MOD ≤ 100)
    ∧ ((add_to_batch 100 (fun _ => 0) 60 (fun _ => 0) 40).ok = true →
        (add_to_batch 100 (fun _ => 0) 60 (fun _ => 0) 40).pos
          = (60 + 40) % SIZE_T_MOD)
    ∧ ((add_to_batch 100 (fun _ => 0) 60 (fun _ => 0) 40).ok = false →
        (add_to_batch 100 (fun _ => 0) 60 (fun _ => 0) 40).pos = 60
        ∧ (add_to_batch 100 (fun _ => 0) 60 (fun _ => 0) 40).buffer
          = (fun _ => 0))
    ∧ (60 + 40 = 100 → (add_to_batch 100 (fun _ => 0) 60 (fun _ => 0) 40).ok = true)
    ∧ (∀ data2 size2, 60 + 40 = 100 → 0 < size2 → 100 + size2 < SIZE_T_MOD →
        (add_to_batch 100 (add_to_batch 100 (fun _ => 0) 60 (fun _ => 0) 40).buffer
          (add_to_batch 100 (fun _ => 0) 60 (fun _ => 0) 40).pos
          data2 size2).ok = false) :=
  add_to_batch_contract 100 (fun _ => 0) 60 (fun _ => 0) 40 (by decide)

/-- The write loop never overshoots the buffer, and exits successfully only
once everything is written. -/
theorem copyLoop_bounds (p : Nat) (trace : List PutRes) :
    ∀ tw rc out, copyLoop p trace tw rc = some out → tw ≤ p →
      out.totalWritten ≤ p ∧ (out.success = true → out.totalWritten = p) := by
  induction trace with
  | nil =>
    intro tw rc out h hle
    simp only [copyLoop] at h
    split at h
    · exact absurd h (by simp)
    · cases h
      exact ⟨hle, fun _ => by show tw = p; omega⟩
  | cons r rest ih =>
    intro tw rc out h hle
    cases r with
    | written =>
      simp only [copyLoop] at h
      split at h
      · exact ih _ _ _ h (by omega)
      · cases h
        exact ⟨hle, fun _ => by show tw = p; omega⟩
    | busy =>
      simp only [copyLoop] at h
      split at h
      · split at h
        · cases h
          exact ⟨hle, by simp⟩
        · exact ih _ _ _ h hle
      · cases h
        exact ⟨hle, fun _ => by show tw = p; omega⟩
    | err =>
      simp only [copyLoop] at h
      split at h
      · cases h
        exact ⟨hle, by simp⟩
      · cases h
        exact ⟨hle, fun _ => by show tw = p; omega⟩

/-- Claim C2 counterexample: a non-empty flush that finds no pool connection
returns with the buffer position still 5, not 0 (src/batch.c lines 33-36
return before the reset at line 159). -/
theorem flush_pos_not_reset_counterexample :
    flush_batch envNoConn 5 =
      some { ret := false, pos := 5, processed := none, failed := none,
             dBatches := 0, dBytes := 0, dErrors := 0 }
    ∧ (5 : Nat) ≠ 0 := by
  exact ⟨by decide, by decide⟩

/-- Claim C2 (amended): `flush_batch` resets the buffer position to zero
exactly when the buffer was empty or the call got past connection
acquisition, BEGIN, and COPY start; on the three early failure paths the
position is returned unchanged. -/
theorem flush_pos_reset_amended (env : FlushEnv) (pos : Nat) (r : FlushResult)
    (h : flush_batch env pos = some r) :
    r.pos = 0 ↔
      (pos = 0 ∨ (env.connAvail = true ∧ env.beginOk = true ∧ env.copyStartOk = true)) := by
  unfold flush_batch at h
  split at h
  · rename_i h0
    cases h
    simp [h0]
  · rename_i h0
    split at h
    · rename_i hc
      cases h
      simp only []
      constructor
      · intro hp; exact absurd hp h0
      · rintro (hp | ⟨hca, -, -⟩)
        · exact absurd hp h0
        · rw [hc] at hca; cases hca
    · rename_i hc
      rw [Bool.not_eq_false] at hc
      split at h
      · rename_i hb
        cases h
        simp only []
        constructor
        · intro hp; exact absurd hp h0
        · rintro (hp | ⟨-, hba, -⟩)
          · exact absurd hp h0
          · rw [hb] at hba; cases hba
      · rename_i hb
        rw [Bool.not_eq_false] at hb
        split at h
        · rename_i hs
          cases h
          simp only []
          constructor
          · intro hp; exact absurd hp h0
          · rintro (hp | ⟨-, -, hsa⟩)
            · exact absurd hp h0
            · rw [hs] at hsa; cases hsa
        · rename_i hs
          rw [Bool.not_eq_false] at hs
          cases hcl : copyLoop pos env.putTrace 0 0 with
          | none => rw [hcl] at h; cases h
          | some out =>
            rw [hcl] at h
            cases h
            simp [hc, hb, hs]

/-- Claim C2 witness: the amended reset property at a successful 8 KiB flush. -/
theorem flush_pos_reset_amended_witness :
    rAllOk.pos = 0 ↔
      (8192 = 0 ∨ (envAllOk.connAvail = true ∧ envAllOk.beginOk = true ∧
        envAllOk.copyStartOk = true)) :=
  flush_pos_reset_amended envAllOk 8192 rAllOk (by decide)

/-- Claim C3 counterexample: on the no-connection path, `flush_batch` returns
false leaving both out-parameters unassigned (`none`), rather than setting
`*processed = 0` and `*failed = 0` (the assignments at src/batch.c lines 39-40
come only after the connection is acquired). -/
theorem flush_outputs_unassigned_counterexample :
    flush_batch envNoConn 7 =
      some { ret := false, pos := 7, processed := none, failed := none,
             dBatches := 0, dBytes := 0, dErrors := 0 }
    ∧ ((none : Option Nat) ≠ some 0) := by
  exact ⟨by decide, by decide⟩

/-- Claim C3 (amended): on a non-empty flush, the no-connection path returns
false with neither out-parameter assigned (callers pre-initialize both to
zero); once a connection is acquired both out-parameters are assigned; on
success `*failed = 0`; and whenever the write loop is reached, `*failed`
equals the unshipped tail `pos - *processed` (the BEGIN / COPY-start failure
paths instead leave both at 0 even though nothing was shipped). -/
theorem flush_outputs_amended (env : FlushEnv) (pos : Nat) (r : FlushResult)
    (h : flush_batch env pos = some r) (hp : pos ≠ 0) :
    (env.connAvail = false → r.ret = false ∧ r.processed = none ∧ r.failed = none)
    ∧ (env.connAvail = true → r.processed.isSome ∧ r.failed.isSome)
    ∧ (r.ret = true → r.failed = some 0)
    ∧ (env.connAvail = true → env.beginOk = true → env.copyStartOk = true →
        r.failed = some (pos - r.processed.getD 0)) := by
  unfold flush_batch at h
  split at h
  · exact absurd (by assumption) hp
  · split at h
    · rename_i hc
      cases h
      refine ⟨fun _ => ⟨rfl, rfl, rfl⟩, ?_, ?_, ?_⟩
      · intro hca; rw [hc] at hca; cases hca
      · intro hr; cases hr
      · intro hca; rw [hc] at hca; cases hca
    · rename_i hc
      rw [Bool.not_eq_false] at hc
      split at h
      · rename_i hb
        cases h
        refine ⟨fun hcf => ?_, fun _ => ⟨rfl, rfl⟩, ?_, ?_⟩
        · rw [hc] at hcf; cases hcf
        · intro hr; cases hr
        · intro _ hba _; rw [hb] at hba; cases hba
      · rename_i hb
        rw [Bool.not_eq_false] at hb
        split at h
        · rename_i hs
          cases h
          refine ⟨fun hcf => ?_, fun _ => ⟨rfl, rfl⟩, ?_, ?_⟩
          · rw [hc] at hcf; cases hcf
          · intro hr; cases hr
          · intro _ _ hsa; rw [hs] at hsa; cases hsa
        · rename_i hs
          rw [Bool.not_eq_false] at hs
          cases hcl : copyLoop pos env.putTrace 0 0 with
          | none => rw [hcl] at h; cases h
          | some out =>
            rw [hcl] at h
            cases h
            have hbd := copyLoop_bounds pos env.putTrace 0 0 out hcl (Nat.zero_le _)
            refine ⟨fun hcf => ?_, fun _ => ⟨rfl, rfl⟩, ?_, ?_⟩
            · rw [hc] at hcf; cases hcf
            · intro hr
              simp only [] at hr ⊢
              rw [if_pos]
              exact hr
            · intro _ _ _
              simp only [Option.getD_some]
              split
              · rename_i hsucc
                have : out.success = true := by
                  rcases Bool.and_eq_true _ _ |>.mp hsucc with ⟨h1, -⟩
                  exact (Bool.and_eq_true _ _ |>.mp h1).1
                rw [hbd.2 this, Nat.sub_self]
              · rfl

/-- Claim C3 witness: the amended out-parameter contract at a successful
8 KiB flush. -/
theorem flush_outputs_amended_witness :
    (envAllOk.connAvail = false →
        rAllOk.ret = false ∧ rAllOk.processed = none ∧ rAllOk.failed = none)
    ∧ (envAllOk.connAvail = true → rAllOk.processed.isSome ∧ rAllOk.failed.isSome)
    ∧ (rAllOk.ret = true → rAllOk.failed = some 0)
    ∧ (envAllOk.connAvail = true → envAllOk.beginOk = true →
        envAllOk.copyStartOk = true →
        rAllOk.failed = some (8192 - rAllOk.processed.getD 0)) :=
  flush_outputs_amended envAllOk 8192 rAllOk (by decide) (by decide)

/-- Claim C1 (code bug): a successful 8 KiB flush followed by the caller's
`update_batch_stats` call advances `batches_processed` by 2 and `total_bytes`
by 16384 (= 2 x 8192), because `flush_batch` already bumped the running stats
internally; and with a failed batch, `errors` grows by `1 + failed` — the
failed byte count, not 1.  The claim's single-batch deltas (+1, +processed,
+1 on failure) do not hold. -/
theorem flush_then_update_double_counts :
    (flush_then_update envAllOk 8192 statsCtx0 =
      some { stats := { totalBytes := 16384, batchesProcessed := 2, errors := 0 },
             ringSize := 1000, currentBatch := 1 })
    ∧ (∃ s2, flush_then_update envWriteErr 8192 statsCtx0 = some s2
        ∧ s2.stats.errors = 8193 ∧ s2.stats.batchesProcessed = 2) := by
  constructor
  · decide
  · refine ⟨{ stats := { totalBytes := 0, batchesProcessed := 2, errors := 8193 },
              ringSize := 1000, currentBatch := 1 }, by decide, by decide, by decide⟩

/-- Claim C10 (code bug): already on the very first batch — `flush_batch`
leaves `batches_processed = 1`, so the guard `batches_processed > 1` fires
inside the following `update_batch_stats` — the previous-timestamp read
`batch_stats[current_batch - 1]` is evaluated with `current_batch = 0`, and
in size_t arithmetic that index is 2^64 - 1, far outside the 1000-entry
ring. -/
theorem update_stats_ring_read_out_of_bounds :
    flush_batch envAllOk 8192 = some rAllOk
    ∧ (applyFlushDelta statsCtx0 rAllOk).stats.batchesProcessed = 1
    ∧ (applyFlushDelta statsCtx0 rAllOk).currentBatch = 0
    ∧ update_prev_read_index (applyFlushDelta statsCtx0 rAllOk) = some (2 ^ 64 - 1)
    ∧ ¬ (2 ^ 64 - 1 < (applyFlushDelta statsCtx0 rAllOk).ringSize) := by
  refine ⟨by decide, by decide, by decide, ?_, by decide⟩
  decide

/-! ## Pool theorems -/

/-- Updating slot `i` changes exactly the entry read back at `i`. -/
theorem modifySlot_get (f : PoolSlot → PoolSlot) :
    ∀ (l : List PoolSlot) (i : Nat), (modifySlot l i f).get? i = (l.get? i).map f := by
  intro l
  induction l with
  | nil => intro i; cases i <;> rfl
  | cons a t ih =>
    intro i
    cases i with
    | zero => rfl
    | succ n => exact ih n

/-- A `mark_connection_dead` call on a slot already DEAD or
PERMANENT_FAILURE returns the context unchanged without logging. -/
theorem mark_dead_noop (ctx : PoolCtx) (i : Nat) (err : String) (pc : PoolSlot)
    (h : ctx.pool.get? i = some pc)
    (hd : pc.state = ConnState.dead ∨ pc.state = ConnState.permanentFailure) :
    mark_connection_dead ctx i err = (ctx, false) := by
  simp only [mark_connection_dead, h]
  rw [if_neg]
  rintro ⟨h1, h2⟩
  rcases hd with h3 | h3
  · exact h1 h3
  · exact h2 h3

/-- The first `mark_connection_dead` call on a live slot kills it, decrements
the healthy counter, and logs. -/
theorem mark_dead_first (ctx : PoolCtx) (i : Nat) (err : String) (pc : PoolSlot)
    (h : ctx.pool.get? i = some pc)
    (hd : pc.state ≠ ConnState.dead ∧ pc.state ≠ ConnState.permanentFailure) :
    mark_connection_dead ctx i err
      = ({ pool := (modifySlot ctx.pool i
            (fun p => { p with state := ConnState.dead, lastError := err })),
           healthy := ctx.healthy - 1 }, true) := by
  simp only [mark_connection_dead, h]
  rw [if_pos hd]

/-- Claim C9: `mark_connection_dead` on a slot already DEAD or
PERMANENT_FAILURE changes nothing - the pool, the healthy counter and the
slot's last_error are untouched and no WARN is logged; only the first
transition into DEAD logs and decrements the healthy counter, and a repeated
call after it is a no-op. -/
theorem mark_connection_dead_idempotent (ctx : PoolCtx) (i : Nat) (err : String)
    (pc : PoolSlot) (h : ctx.pool.get? i = some pc) :
    ((pc.state = ConnState.dead ∨ pc.state = ConnState.permanentFailure) →
        mark_connection_dead ctx i err = (ctx, false))
    ∧ ((pc.state ≠ ConnState.dead ∧ pc.state ≠ ConnState.permanentFailure) →
        (mark_connection_dead ctx i err).2 = true
        ∧ (mark_connection_dead ctx i err).1.healthy = ctx.healthy - 1
        ∧ ((mark_connection_dead ctx i err).1.pool.get? i).map PoolSlot.state
            = some ConnState.dead)
    ∧ mark_connection_dead (mark_connection_dead ctx i err).1 i err
        = ((mark_connection_dead ctx i err).1, false) := by
  by_cases hd : pc.state ≠ ConnState.dead ∧ pc.state ≠ ConnState.permanentFailure
  · have hget : (modifySlot ctx.pool i
        (fun p => { p with state := ConnState.dead, lastError := err })).get? i
        = some { pc with state := ConnState.dead, lastError := err } := by
      rw [modifySlot_get, h]
      rfl
    refine ⟨?_, ?_, ?_⟩
    · rintro (h2 | h2)
      · exact absurd h2 hd.1
      · exact absurd h2 hd.2
    · intro _
      rw [mark_dead_first ctx i err pc h hd]
      refine ⟨rfl, rfl, ?_⟩
      show Option.map PoolSlot.state ((modifySlot ctx.pool i
        (fun p => { p with state := ConnState.dead, lastError := err })).get? i)
          = some ConnState.dead
      rw [hget]
      rfl
    · rw [mark_dead_first ctx i err pc h hd]
      exact mark_dead_noop _ i err _ hget (Or.inl rfl)
  · have hd2 : pc.state = ConnState.dead ∨ pc.state = ConnState.permanentFailure := by
      by_contra hc
      push_neg at hc
      exact hd hc
    have h1 := mark_dead_noop ctx i err pc h hd2
    refine ⟨fun _ => h1, fun h2 => absurd h2 hd, ?_⟩
    rw [h1]
    exact h1

/-- Claim C9 witness: marking an already-DEAD one-slot pool is a no-op. -/
theorem mark_connection_dead_idempotent_witness :
    mark_connection_dead ctxOneDead 0 "again" = (ctxOneDead, false) :=
  (mark_connection_dead_idempotent ctxOneDead 0 "again" deadSlot0 (by decide)).1
    (Or.inl (by decide))

/-- The scheduled backoff of a reachable failed reconnect is zero seconds:
for every attempt count the gate admits, `(100 << min(k+1, 10)) / 1000 = 0`. -/
theorem backoff_shift_div_zero (a : Nat) (ha : a < 3) :
    (RECOVERY_BACKOFF_BASE_MS <<<
      (if a + 1 < MAX_BACKOFF_ATTEMPTS then a + 1 else MAX_BACKOFF_ATTEMPTS)) / 1000 = 0 := by
  interval_cases a <;> decide

/-- Claim C4 (code bug): on every reachable failed recovery attempt (time
gate passed, attempt count below MAX_RECOVERY_ATTEMPTS = 3), the code
enforces no backoff at all: a failed reconnect schedules
`next_recovery_attempt = now + (100 << min(k+1,10)) / 1000 = now + 0`
(the millisecond product truncates to zero whole seconds for every reachable
attempt count), and a failed secure-transport check or a failed PQprepare
leaves `next_recovery_attempt` unchanged.  The claimed lower bound
RECOVERY_BACKOFF_BASE_MS · 2^min(k, MAX_BACKOFF_ATTEMPTS) ms never separates
attempts. -/
theorem recovery_backoff_never_enforced (rs : Bool) (env : RecoverEnv)
    (now : Nat) (pc : PoolSlot)
    (hgate : ¬ now < pc.nextRecoveryAttempt)
    (hatt : pc.recoveryAttempts < MAX_RECOVERY_ATTEMPTS) :
    (env.connectOk = false →
      (recover_dead_connection rs env now pc).slot.nextRecoveryAttempt = now)
    ∧ (env.connectOk = true → rs = true → env.sslInUse = false →
      (recover_dead_connection rs env now pc).slot.nextRecoveryAttempt
        = pc.nextRecoveryAttempt)
    ∧ (env.connectOk = true → (rs = true → env.sslInUse = true) →
        env.prepareOk = false →
      (recover_dead_connection rs env now pc).slot.nextRecoveryAttempt
        = pc.nextRecoveryAttempt) := by
  have hatt3 : pc.recoveryAttempts < 3 := hatt
  have hnge : ¬ pc.recoveryAttempts ≥ MAX_RECOVERY_ATTEMPTS := by
    simp only [MAX_RECOVERY_ATTEMPTS]
    omega
  refine ⟨?_, ?_, ?_⟩
  · intro hcf
    simp [recover_dead_connection, if_neg hgate, if_neg hnge, hcf,
      backoff_shift_div_zero pc.recoveryAttempts hatt3]
  · intro hct hrs hssl
    simp [recover_dead_connection, if_neg hgate, if_neg hnge, hct, hrs, hssl]
  · intro hct hssl hprep
    have hs : ¬ (rs = true ∧ env.sslInUse = false) := by
      rintro ⟨h1, h2⟩
      rw [hssl h1] at h2
      cases h2
    simp [recover_dead_connection, if_neg hgate, if_neg hnge, hct, hprep,
      if_neg hs]

/-- Claim C4 witness: a reconnect failure at time 1000 on a fresh DEAD slot
schedules the next attempt for time 1000 — zero backoff. -/
theorem recovery_backoff_never_enforced_witness :
    (envConnFail.connectOk = false →
      (recover_dead_connection true envConnFail 1000 deadSlot0).slot.nextRecoveryAttempt
        = 1000)
    ∧ (envConnFail.connectOk = true → true = true → envConnFail.sslInUse = false →
      (recover_dead_connection true envConnFail 1000 deadSlot0).slot.nextRecoveryAttempt
        = deadSlot0.nextRecoveryAttempt)
    ∧ (envConnFail.connectOk = true → (true = true → envConnFail.sslInUse = true) →
        envConnFail.prepareOk = false →
      (recover_dead_connection true envConnFail 1000 deadSlot0).slot.nextRecoveryAttempt
        = deadSlot0.nextRecoveryAttempt) :=
  recovery_backoff_never_enforced true envConnFail 1000 deadSlot0
    (by decide) (by decide)

/-- Claim C6 (code bug): starting from a fully healthy init (10 AVAILABLE
slots, healthy = 10) and running exactly the sequence `flush_batch` performs
on a write error — acquire, mark the acquired slot dead, release it with
had_error = true — leaves the healthy counter at 9 while all 10 slots are
outside {DEAD, PERMANENT_FAILURE}: `return_connection` put the freshly dead
slot back to AVAILABLE (src/connection.c line 178) without incrementing the
counter, so the claimed invariant fails at a reachable state. -/
theorem healthy_counter_invariant_broken :
    (writeErrorSeq.map fun c => (c.healthy, countNotDead c.pool)) = some (9, 10)
    ∧ (9 : Nat) ≠ 10 := by
  exact ⟨by decide, by decide⟩

/-- Claim C7 counterexample: with every slot DEAD and its backoff gate
closed, `get_connection` returns NULL on the very first ETIMEDOUT although
the shutdown flag is false — the loop at src/connection.c lines 148-160
exits on ETIMEDOUT, the absolute deadline is computed once before the loop,
and `shutdown_requested` is never read. -/
theorem get_connection_null_without_shutdown :
    getEnvTimedOut.shutdownRequested = false
    ∧ get_connection getEnvTimedOut allDeadCtx = some (allDeadCtx, none) := by
  exact ⟨rfl, by decide⟩

/-- The wait loop returns NULL exactly on the traces whose ETIMEDOUT comes
before any successful wake-up rescan. -/
theorem waitLoop_none_iff (sw : Nat → Nat → Bool) (now : Nat)
    (pool : List PoolSlot) :
    ∀ (evts : List WaitEvent) (k : Nat) (out : List PoolSlot × Option Nat),
      waitLoop sw now pool evts k = some out →
      (out.2 = none ↔ timesOutFirst sw pool evts k = true) := by
  intro evts
  induction evts with
  | nil =>
    intro k out h
    cases h
  | cons e rest ih =>
    intro k out h
    cases e with
    | timedOut =>
      simp only [waitLoop] at h
      cases h
      simp [timesOutFirst]
    | woke =>
      simp only [waitLoop, timesOutFirst] at h ⊢
      cases hf : findAvailableFrom (sw k) pool 0 with
      | some i =>
        rw [hf] at h
        injection h with h
        rw [← h]
        simp
      | none =>
        rw [hf] at h
        exact ih (k + 1) out h

/-- Claim C7 (amended): the result of `get_connection` is independent of the
shutdown flag, and a completed call returns the no-connection error exactly
when the first scan finds nothing, the recovery scan acquires nothing, and
the single, never-renewed timed wait reaches ETIMEDOUT before any wake-up
rescan succeeds on the pool the failed recovery scan left behind. -/
theorem get_connection_timeout_amended (env : GetEnv) (ctx : PoolCtx)
    (out : PoolCtx × Option Nat)
    (h : get_connection env ctx = some out) :
    (∀ b, get_connection { env with shutdownRequested := b } ctx
        = get_connection env ctx)
    ∧ (out.2 = none ↔
        (findAvailableFrom env.statusOk ctx.pool 0 = none
         ∧ (recoverScan env.requireSsl env.recoverEnv env.now ctx.pool 0).acquired = none
         ∧ timesOutFirst env.statusOkOnWake
             (recoverScan env.requireSsl env.recoverEnv env.now ctx.pool 0).pool
             env.waitEvents 0 = true)) := by
  refine ⟨fun b => rfl, ?_⟩
  cases hf : findAvailableFrom env.statusOk ctx.pool 0 with
  | some i =>
    simp only [get_connection, hf] at h
    cases h
    constructor
    · intro hn
      cases hn
    · rintro ⟨h1, -, -⟩
      cases h1
  | none =>
    simp only [get_connection, hf] at h
    cases ha : (recoverScan env.requireSsl env.recoverEnv env.now ctx.pool 0).acquired with
    | some i =>
      rw [ha] at h
      cases h
      constructor
      · intro hn
        cases hn
      · rintro ⟨-, h2, -⟩
        cases h2
    | none =>
      rw [ha] at h
      cases hw : waitLoop env.statusOkOnWake env.now
          (recoverScan env.requireSsl env.recoverEnv env.now ctx.pool 0).pool
          env.waitEvents 0 with
      | none =>
        rw [hw] at h
        cases h
      | some p =>
        obtain ⟨pool2, acq⟩ := p
        rw [hw] at h
        cases h
        have hiff := waitLoop_none_iff env.statusOkOnWake env.now
          (recoverScan env.requireSsl env.recoverEnv env.now ctx.pool 0).pool
          env.waitEvents 0 (pool2, acq) hw
        constructor
        · intro hn
          exact ⟨rfl, rfl, hiff.mp hn⟩
        · rintro ⟨-, -, ht⟩
          exact hiff.mpr ht

/-- Claim C7 witness: the amended acquisition contract at the all-dead pool
whose first wait event is ETIMEDOUT, with the shutdown flag false. -/
theorem get_connection_timeout_amended_witness :
    (∀ b, get_connection { getEnvTimedOut with shutdownRequested := b } allDeadCtx
        = get_connection getEnvTimedOut allDeadCtx)
    ∧ (((allDeadCtx, (none : Option Nat)).2 = none ↔
        (findAvailableFrom getEnvTimedOut.statusOk allDeadCtx.pool 0 = none
         ∧ (recoverScan getEnvTimedOut.requireSsl getEnvTimedOut.recoverEnv
              getEnvTimedOut.now allDeadCtx.pool 0).acquired = none
         ∧ timesOutFirst getEnvTimedOut.statusOkOnWake
             (recoverScan getEnvTimedOut.requireSsl getEnvTimedOut.recoverEnv
               getEnvTimedOut.now allDeadCtx.pool 0).pool
             getEnvTimedOut.waitEvents 0 = true))) :=
  get_connection_timeout_amended getEnvTimedOut allDeadCtx
    (allDeadCtx, none) (by decide)

/-- Claim C8 counterexample: HYDRANT_BATCH_SIZE = 32 KiB (below the 64 KiB
minimum) yields an effective capacity of 1 MiB — the built-in default, not
the violated bound — and zero WARN logs: `load_config` silently ignores
out-of-range overrides (src/init.c line 29), so the clamp in `init_hydrant`
never fires on the environment path. -/
theorem batch_size_env_not_clamped :
    effective_batch_size { batchSizeVar := some (32 * 1024), dbUrlPresent := true }
      = some (DEFAULT_BATCH_SIZE, 0)
    ∧ DEFAULT_BATCH_SIZE ≠ MIN_BATCH_SIZE := by
  exact ⟨by decide, by decide⟩

/-- Claim C8 (amended): an out-of-range HYDRANT_BATCH_SIZE value is ignored
in favour of the 1 MiB default with no WARN logged; for every input the
effective capacity lies in [64 KiB, 10 MiB]. -/
theorem batch_size_env_amended (e : ConfigEnvVars) (bs warns : Nat)
    (h : effective_batch_size e = some (bs, warns)) :
    MIN_BATCH_SIZE ≤ bs ∧ bs ≤ MAX_BATCH_SIZE
    ∧ (∀ v, e.batchSizeVar = some v →
        ¬ (MIN_BATCH_SIZE ≤ v ∧ v ≤ MAX_BATCH_SIZE) →
        bs = DEFAULT_BATCH_SIZE ∧ warns = 0) := by
  simp only [effective_batch_size, load_config_env] at h
  split at h
  · cases h
  · rw [Option.map_some'] at h
    injection h with h
    cases hb : e.batchSizeVar with
    | none =>
      simp only [hb] at h
      have hc : init_clamp_batch_size DEFAULT_BATCH_SIZE = (DEFAULT_BATCH_SIZE, 0) := by
        decide
      rw [hc] at h
      injection h with h1 h2
      refine ⟨by rw [← h1]; decide, by rw [← h1]; decide, ?_⟩
      intro v hv
      cases hv
    | some v =>
      simp only [hb] at h
      by_cases hr : MIN_BATCH_SIZE ≤ v ∧ v ≤ MAX_BATCH_SIZE
      · rw [if_pos hr] at h
        have hc : init_clamp_batch_size v = (v, 0) := by
          simp only [init_clamp_batch_size]
          rw [if_neg (Nat.not_lt.mpr hr.1)]
          exact if_neg (Nat.not_lt.mpr hr.2)
        rw [hc] at h
        injection h with h1 h2
        refine ⟨by rw [← h1]; exact hr.1, by rw [← h1]; exact hr.2, ?_⟩
        intro v2 hv2 hnr
        injection hv2 with hv2
        rw [← hv2] at hnr
        exact absurd hr hnr
      · rw [if_neg hr] at h
        have hc : init_clamp_batch_size DEFAULT_BATCH_SIZE = (DEFAULT_BATCH_SIZE, 0) := by
          decide
        rw [hc] at h
        injection h with h1 h2
        exact ⟨by rw [← h1]; decide, by rw [← h1]; decide,
          fun v2 _ _ => ⟨h1.symm, h2.symm⟩⟩

/-- Claim C8 witness: the amended clamp behaviour at the 32 KiB input. -/
theorem batch_size_env_amended_witness :
    MIN_BATCH_SIZE ≤ DEFAULT_BATCH_SIZE ∧ DEFAULT_BATCH_SIZE ≤ MAX_BATCH_SIZE
    ∧ (∀ v, ({ batchSizeVar := some (32 * 1024), dbUrlPresent := true }
          : ConfigEnvVars).batchSizeVar = some v →
        ¬ (MIN_BATCH_SIZE ≤ v ∧ v ≤ MAX_BATCH_SIZE) →
        DEFAULT_BATCH_SIZE = DEFAULT_BATCH_SIZE ∧ (0 : Nat) = 0) :=
  batch_size_env_amended
    { batchSizeVar := some (32 * 1024), dbUrlPresent := true }
    DEFAULT_BATCH_SIZE 0 (by decide)

end Hydrant
